import Mathlib

/-!
Shallow embedding of `src/houseVentFanCtrl.ino` (Z-Wave whole house
ventilation fan speed controller).

Pure C functions become Lean functions on `Nat`/`Int`; the global mutable
state (pins, EEPROM, `fanSpeed`, `parameters`, `pendingCfgParamSave`,
sensor mirrors) becomes an explicit record `St` threaded through the
stateful functions.  Machine integers are `Nat`/`Int` with explicit
`% 256` / `% 2^16` / `% 2^32` where the C code can wrap.  Digital pin
levels are the two-valued `PinLevel`.

The non-volatile storage primitive (`EEPROM.read` / `EEPROM.update`) is a
byte map `Nat → Nat`.  `zunoSaveCFGParam` / `zunoLoadCFGParam` are Z-Uno
library collaborators whose code is not in the repository; they are
modelled from the spec (see their doc comments).
-/

/-- Arduino digital pin level. Relays are off when `HIGH`. -/
inductive PinLevel where
  | HIGH
  | LOW
deriving DecidableEq, Repr

/-- Constant `HIGH` of the Arduino API. -/
def HIGH : PinLevel := PinLevel.HIGH

/-- Constant `LOW` of the Arduino API. -/
def LOW : PinLevel := PinLevel.LOW

def NUMBER_OF_RELAYS : Nat := 6

def EEPROM_ADDRESS : Nat := 0

def CHECKSUM_ADDRESS : Nat := EEPROM_ADDRESS + 1

def TEMP_HYSTERESIS_DEFAULT : Nat := 10

def HUM_HYSTERESIS_DEFAULT : Nat := 10

def READ_INTERVAL_DEFAULT_S : Nat := 30

def READ_INTERVAL_MIN : Nat := 30

def PARAMETER_START_EEPROM_ADDRESS : Nat := 0x2000

def PARAMETER_FIRST_NUMBER : Nat := 64

/-- Enum `param_t`: `PARAM_TEMP_HYSTERESIS = 0`. -/
def PARAM_TEMP_HYSTERESIS : Nat := 0

/-- Enum `param_t`: `PARAM_HUM_HYSTERESIS = 1`. -/
def PARAM_HUM_HYSTERESIS : Nat := 1

/-- Enum `param_t`: `PARAM_READ_INTERVAL = 2`. -/
def PARAM_READ_INTERVAL : Nat := 2

/-- Enum `param_t`: `PARAM_MAX = 3`. -/
def PARAM_MAX : Nat := 3

/-- Pin numbers, where the six relays are connected. -/
def RELAY_PIN : List Nat := [9, 10, 11, 12, 14, 15]

/-- Relays are off when HIGH, ROW = Fan speed, COLUMN = Relay number. -/
def relayTable : List (List PinLevel) :=
  [ [HIGH, HIGH, HIGH, HIGH, HIGH],
    [LOW,  HIGH, HIGH, HIGH, HIGH],
    [HIGH, HIGH, HIGH, HIGH, LOW ],
    [HIGH, LOW,  HIGH, HIGH, LOW ],
    [HIGH, HIGH, HIGH, LOW,  LOW ],
    [HIGH, HIGH, LOW,  LOW,  LOW ] ]

/-- Array `parametersDefault[PARAM_MAX]`. -/
def parametersDefault : List Nat :=
  [TEMP_HYSTERESIS_DEFAULT, HUM_HYSTERESIS_DEFAULT, READ_INTERVAL_DEFAULT_S]

/-- Arduino `highByte` of a 16-bit value. -/
def highByte (v : Nat) : Nat := v / 256 % 256

/-- Arduino `lowByte` of a 16-bit value. -/
def lowByte (v : Nat) : Nat := v % 256

/-- Function `convertSpeed`: convert speed from percentage 0-99% to a value
in range 0-5 (strict greater-than thresholds). -/
def convertSpeed (percentage : Nat) : Nat :=
  if percentage > 80 then 5
  else if percentage > 60 then 4
  else if percentage > 40 then 3
  else if percentage > 20 then 2
  else if percentage > 0 then 1
  else 0

/-- The ordered list of `digitalWrite` calls `setSpeedRelays` performs:
for `speedValue ≤ 5` one write per controlled relay `i < NUMBER_OF_RELAYS - 1`
of `relayTable[speedValue][i]` to pin `RELAY_PIN[i]`; otherwise none. -/
def setSpeedRelaysWrites (speedValue : Nat) : List (Nat × PinLevel) :=
  if speedValue ≤ 5 then
    (List.range (NUMBER_OF_RELAYS - 1)).map
      (fun i => (RELAY_PIN.getD i 0, (relayTable.getD speedValue []).getD i HIGH))
  else []

/-- Apply a sequence of `digitalWrite`s to the pin state, in order. -/
def applyWrites (ws : List (Nat × PinLevel)) (pins : Nat → PinLevel) : Nat → PinLevel :=
  ws.foldl (fun p w => fun a => if a = w.1 then w.2 else p a) pins

/-- Function `setSpeedRelays`: set relays according to `relayTable`
depending on `speedValue` (valid range 0-5; out-of-range is a no-op). -/
def setSpeedRelays (speedValue : Nat) (pins : Nat → PinLevel) : Nat → PinLevel :=
  applyWrites (setSpeedRelaysWrites speedValue) pins

/-- Global mutable state of the sketch: the digital output pins, the EEPROM
byte storage, and the global variables of the program. -/
structure St where
  pins : Nat → PinLevel
  eeprom : Nat → Nat
  fanSpeed : Nat
  parameters : Nat → Nat
  pendingCfgParamSave : Bool
  temperature : Int
  sentTemperature : Int
  humidity : Int
  sentHumidity : Int
  lastMillis : Nat

/-- Function `getterFan`: gets the current speed percentage value. -/
def getterFan (s : St) : Nat := s.fanSpeed

/-- Function `setterFan`: store the new percentage in `fanSpeed`, set the
relays via `setSpeedRelays (convertSpeed newValue)`, and persist the byte
at `EEPROM_ADDRESS` (`EEPROM.update`). -/
def setterFan (newValue : Nat) (s : St) : St :=
  { s with
    fanSpeed := newValue,
    pins := setSpeedRelays (convertSpeed newValue) s.pins,
    eeprom := fun a => if a = EEPROM_ADDRESS then newValue else s.eeprom a }

/-- Modelled from the spec: `zunoSaveCFGParam` is a Z-Uno library
collaborator whose code is not in the repository.  Per the spec, the
parameter block lives at a fixed high address
(`PARAMETER_START_EEPROM_ADDRESS`) and holds the parameter values in
declared order, two bytes per 16-bit value; saving configuration parameter
number `n` stores the low and high byte of its value at the block slot for
`n - PARAMETER_FIRST_NUMBER`. -/
def zunoSaveCFGParam (paramNumber : Nat) (value : Nat) (eeprom : Nat → Nat) : Nat → Nat :=
  let base := PARAMETER_START_EEPROM_ADDRESS + 2 * (paramNumber - PARAMETER_FIRST_NUMBER)
  fun a => if a = base then lowByte value
    else if a = base + 1 then highByte value
    else eeprom a

/-- Modelled from the spec: `zunoLoadCFGParam` reads back the 16-bit value
stored by `zunoSaveCFGParam` from the parameter block. -/
def zunoLoadCFGParam (paramNumber : Nat) (eeprom : Nat → Nat) : Nat :=
  let base := PARAMETER_START_EEPROM_ADDRESS + 2 * (paramNumber - PARAMETER_FIRST_NUMBER)
  eeprom base + 256 * eeprom (base + 1)

/-- Function `setDefaultParameters`: `memcpy(parameters, parametersDefault,
sizeof(parameters))`. -/
def setDefaultParameters (s : St) : St :=
  { s with parameters := fun i =>
      if i < PARAM_MAX then parametersDefault.getD i 0 else s.parameters i }

/-- Function `loadParameters`: load each of the `PARAM_MAX` parameters from
the configuration-parameter storage. -/
def loadParameters (s : St) : St :=
  { s with parameters := fun i =>
      if i < PARAM_MAX then zunoLoadCFGParam (PARAMETER_FIRST_NUMBER + i) s.eeprom
      else s.parameters i }

/-- Function `saveParameters`: for each parameter in declared order,
accumulate `highByte` then `lowByte` into a `uint8_t` checksum (wrapping at
256 on every addition) and save the parameter via `zunoSaveCFGParam`;
finally `EEPROM.update(CHECKSUM_ADDRESS, checksum)`. -/
def saveParameters (s : St) : St :=
  let r := (List.range PARAM_MAX).foldl
    (fun (acc : Nat × (Nat → Nat)) i =>
      (((acc.1 + highByte (s.parameters i)) % 256 + lowByte (s.parameters i)) % 256,
       zunoSaveCFGParam (PARAMETER_FIRST_NUMBER + i) (s.parameters i) acc.2))
    (0, s.eeprom)
  { s with eeprom := fun a => if a = CHECKSUM_ADDRESS then r.1 else r.2 a }

/-- Function `verifyChecksum`: sum (wrapping `uint8_t`) the `PARAM_MAX * 2`
EEPROM bytes of the parameter block and compare with the byte stored at
`CHECKSUM_ADDRESS`; returns true if they are equal. -/
def verifyChecksum (eeprom : Nat → Nat) : Bool :=
  let checksum := (List.range (PARAM_MAX * 2)).foldl
    (fun c i => (c + eeprom (PARAMETER_START_EEPROM_ADDRESS + i)) % 256) 0
  checksum == eeprom CHECKSUM_ADDRESS

/-- Function `setup`: drive all `NUMBER_OF_RELAYS` relay pins `HIGH`, replay
the persisted byte through `setterFan (EEPROM.read EEPROM_ADDRESS)`, then
either load the parameters (checksum valid) or reset them to the defaults
and persist them (checksum invalid). -/
def bootParams (s2 : St) : St :=
  if verifyChecksum s2.eeprom then loadParameters s2
  else saveParameters (setDefaultParameters s2)

/-- Function `setup`, continued: the two stages are the relay-pin
initialization plus `setterFan` replay, then the checksum-guarded
parameter initialization `bootParams`. -/
def setup (s : St) : St :=
  bootParams (setterFan (s.eeprom EEPROM_ADDRESS)
    { s with pins := applyWrites (RELAY_PIN.map (fun p => (p, HIGH))) s.pins })

/-- Power cycle: RAM (all global variables) reinitializes to the
compile-time initial values, EEPROM persists; the physical pin lines are
left as given (setup rewrites the relay pins before anything else). -/
def powerCycle (s : St) : St :=
  { pins := s.pins,
    eeprom := s.eeprom,
    fanSpeed := 0,
    parameters := fun _ => 0,
    pendingCfgParamSave := false,
    temperature := 0,
    sentTemperature := 0,
    humidity := 0,
    sentHumidity := 0,
    lastMillis := 0 }

/-- Function `configParameterChanged`: Z-Wave configuration-parameter
handler.  `paramNumber = param - PARAMETER_FIRST_NUMBER` is a `uint8_t`
subtraction, hence wraps modulo 256; out-of-range numbers return without
any change.  The read-interval parameter is floored at `READ_INTERVAL_MIN`;
the in-memory parameter is updated and only the deferred-save flag is set
(no storage write here). -/
def configParameterChanged (param : Nat) (value : Nat) (s : St) : St :=
  let paramNumber := (param + 256 - PARAMETER_FIRST_NUMBER) % 256
  if paramNumber ≥ PARAM_MAX then s
  else
    let value1 := if paramNumber = PARAM_READ_INTERVAL ∧ value < READ_INTERVAL_MIN
      then READ_INTERVAL_MIN else value
    { s with
      parameters := fun i => if i = paramNumber then value1 else s.parameters i,
      pendingCfgParamSave := true }

/-- Inputs consumed by one iteration of `loop`: the value of `millis()` and
the two DHT22 sensor readings (only read when the poll fires). -/
structure LoopInput where
  currentMillis : Nat
  tempReading : Int
  humReading : Int

/-- Observable effects of one iteration of `loop`: whether
`zunoSendReport` fired for the temperature and the humidity channel. -/
structure LoopOutput where
  tempReport : Bool
  humReport : Bool
deriving DecidableEq, Repr

/-- Body of the polling branch of `loop`: store the fresh readings, then
for each quantity independently compare `abs(new - sent)` with its
hysteresis parameter, report and update the sent value on success.
`int16_t` operands promote to `int`, which holds the difference exactly. -/
def pollBody (tempReading humReading : Int) (s : St) : St × LoopOutput :=
  let s1 := { s with temperature := tempReading, humidity := humReading }
  let tempFire : Bool := decide ((s1.temperature - s1.sentTemperature).natAbs ≥
    s1.parameters PARAM_TEMP_HYSTERESIS)
  let s2 := if tempFire then { s1 with sentTemperature := s1.temperature } else s1
  let humFire : Bool := decide ((s2.humidity - s2.sentHumidity).natAbs ≥
    s2.parameters PARAM_HUM_HYSTERESIS)
  let s3 := if humFire then { s2 with sentHumidity := s2.humidity } else s2
  (s3, ⟨tempFire, humFire⟩)

/-- Epilogue of `loop`: if `pendingCfgParamSave` is set, perform the
deferred `saveParameters` and clear the flag. -/
def loopSaveStep (p : St × LoopOutput) : St × LoopOutput :=
  if p.1.pendingCfgParamSave then
    ({ saveParameters p.1 with pendingCfgParamSave := false }, p.2)
  else p

/-- Function `loop`: one iteration.  The `uint32_t` subtraction
`currentMillis - lastMillis` wraps modulo `2^32`; when at least
`parameters[PARAM_READ_INTERVAL] * 1000` ms have elapsed the sensor poll
runs; afterwards a pending deferred save is performed and the flag is
cleared. -/
def loopTick (inp : LoopInput) (s : St) : St × LoopOutput :=
  loopSaveStep
    (if (inp.currentMillis + 2 ^ 32 - s.lastMillis % 2 ^ 32) % 2 ^ 32 ≥
        s.parameters PARAM_READ_INTERVAL * 1000 then
      pollBody inp.tempReading inp.humReading { s with lastMillis := inp.currentMillis }
    else (s, ⟨false, false⟩))

/-- Checksum of the in-memory parameters as the claim states it: the sum
modulo 256 of the high byte and the low byte of every parameter value in
declared order. -/
def paramChecksum (params : Nat → Nat) : Nat :=
  (highByte (params 0) + lowByte (params 0) +
   highByte (params 1) + lowByte (params 1) +
   highByte (params 2) + lowByte (params 2)) % 256

/-- The deferred-save invariant: the byte stored at `CHECKSUM_ADDRESS`
is the checksum of the in-memory parameters. -/
def ChecksumInv (s : St) : Prop :=
  s.eeprom CHECKSUM_ADDRESS = paramChecksum s.parameters

/-- A concrete all-zero initial state (fresh device: pins high, EEPROM
erased to zero, globals at their compile-time initial values). -/
def initSt : St :=
  { pins := fun _ => HIGH,
    eeprom := fun _ => 0,
    fanSpeed := 0,
    parameters := fun _ => 0,
    pendingCfgParamSave := false,
    temperature := 0,
    sentTemperature := 0,
    humidity := 0,
    sentHumidity := 0,
    lastMillis := 0 }

/-- A corrupt storage image: all bytes zero except the stored checksum,
which is 1, so `verifyChecksum` fails at boot. -/
def corruptSt : St :=
  { initSt with eeprom := fun a => if a = CHECKSUM_ADDRESS then 1 else 0 }

lemma convertSpeed_le_five (p : Nat) : convertSpeed p ≤ 5 := by
  unfold convertSpeed
  split_ifs <;> omega

lemma verifyChecksum_eval (e : Nat → Nat) :
    verifyChecksum e =
      (((((((0 + e 8192) % 256 + e 8193) % 256 + e 8194) % 256 + e 8195) % 256
        + e 8196) % 256 + e 8197) % 256 == e 1) := rfl

lemma saveParameters_eeprom_eval (s : St) :
    (saveParameters s).eeprom = fun a =>
      if a = CHECKSUM_ADDRESS then
        ((((((0 + highByte (s.parameters 0)) % 256 + lowByte (s.parameters 0)) % 256
          + highByte (s.parameters 1)) % 256 + lowByte (s.parameters 1)) % 256
          + highByte (s.parameters 2)) % 256 + lowByte (s.parameters 2)) % 256
      else if a = 8196 then lowByte (s.parameters 2)
      else if a = 8197 then highByte (s.parameters 2)
      else if a = 8194 then lowByte (s.parameters 1)
      else if a = 8195 then highByte (s.parameters 1)
      else if a = 8192 then lowByte (s.parameters 0)
      else if a = 8193 then highByte (s.parameters 0)
      else s.eeprom a := rfl

lemma setterFan_eeprom_eval (v : Nat) (x : St) :
    (setterFan v x).eeprom = fun a => if a = 0 then v else x.eeprom a := rfl

lemma verifyChecksum_setterFan (v : Nat) (x : St) :
    verifyChecksum ((setterFan v x).eeprom) = verifyChecksum x.eeprom := by
  rw [verifyChecksum_eval, verifyChecksum_eval, setterFan_eeprom_eval]
  norm_num

lemma verifyChecksum_saveParameters (s : St) :
    verifyChecksum ((saveParameters s).eeprom) = true := by
  rw [verifyChecksum_eval, saveParameters_eeprom_eval]
  simp only [CHECKSUM_ADDRESS, EEPROM_ADDRESS]
  norm_num [beq_iff_eq]
  omega

lemma zunoLoad_after_save (s : St) (j : Nat) (hj : j < PARAM_MAX)
    (hb : s.parameters j < 65536) :
    zunoLoadCFGParam (PARAMETER_FIRST_NUMBER + j) ((saveParameters s).eeprom) =
      s.parameters j := by
  rw [saveParameters_eeprom_eval]
  unfold PARAM_MAX at hj
  interval_cases j <;>
    · simp only [zunoLoadCFGParam, PARAMETER_FIRST_NUMBER, PARAMETER_START_EEPROM_ADDRESS,
        CHECKSUM_ADDRESS, EEPROM_ADDRESS, highByte, lowByte]
      norm_num
      omega

lemma ChecksumInv_saveParameters (x : St) : ChecksumInv (saveParameters x) := by
  unfold ChecksumInv paramChecksum
  have hpar : (saveParameters x).parameters = x.parameters := rfl
  rw [hpar]
  have he : (saveParameters x).eeprom CHECKSUM_ADDRESS =
      ((((((0 + highByte (x.parameters 0)) % 256 + lowByte (x.parameters 0)) % 256
        + highByte (x.parameters 1)) % 256 + lowByte (x.parameters 1)) % 256
        + highByte (x.parameters 2)) % 256 + lowByte (x.parameters 2)) % 256 := rfl
  rw [he]
  omega

lemma setSpeedRelays_pin (v : Nat) (hv : v ≤ 5) (q : Nat → PinLevel) (i : Nat)
    (hi : i < 5) :
    setSpeedRelays v q (RELAY_PIN.getD i 0) = (relayTable.getD v []).getD i HIGH := by
  interval_cases v <;> interval_cases i <;> rfl

lemma pollBody_frame (t hm : Int) (x : St) :
    (pollBody t hm x).1.parameters = x.parameters ∧
    (pollBody t hm x).1.eeprom = x.eeprom ∧
    (pollBody t hm x).1.pendingCfgParamSave = x.pendingCfgParamSave ∧
    (pollBody t hm x).1.pins = x.pins ∧
    (pollBody t hm x).1.fanSpeed = x.fanSpeed := by
  simp only [pollBody]
  split <;> split <;> exact ⟨rfl, rfl, rfl, rfl, rfl⟩


lemma loopSaveStep_of_true (p : St × LoopOutput) (h : p.1.pendingCfgParamSave = true) :
    loopSaveStep p = ({ saveParameters p.1 with pendingCfgParamSave := false }, p.2) := by
  unfold loopSaveStep
  rw [if_pos h]

lemma loopSaveStep_of_false (p : St × LoopOutput) (h : p.1.pendingCfgParamSave = false) :
    loopSaveStep p = p := by
  unfold loopSaveStep
  rw [h]
  simp

lemma loopTick_cases (inp : LoopInput) (sx : St) :
    ∃ s1 : St, s1.parameters = sx.parameters ∧ s1.eeprom = sx.eeprom ∧
      s1.pendingCfgParamSave = sx.pendingCfgParamSave ∧
      s1.pins = sx.pins ∧ s1.fanSpeed = sx.fanSpeed ∧
      ((sx.pendingCfgParamSave = true ∧
          (loopTick inp sx).1 = { saveParameters s1 with pendingCfgParamSave := false }) ∨
       (sx.pendingCfgParamSave = false ∧ (loopTick inp sx).1 = s1)) := by
  unfold loopTick
  by_cases hc : (inp.currentMillis + 2 ^ 32 - sx.lastMillis % 2 ^ 32) % 2 ^ 32 ≥
      sx.parameters PARAM_READ_INTERVAL * 1000
  · rw [if_pos hc]
    refine ⟨(pollBody inp.tempReading inp.humReading
      { sx with lastMillis := inp.currentMillis }).1,
      (pollBody_frame _ _ _).1, (pollBody_frame _ _ _).2.1, (pollBody_frame _ _ _).2.2.1,
      (pollBody_frame _ _ _).2.2.2.1, (pollBody_frame _ _ _).2.2.2.2, ?_⟩
    rcases hb : sx.pendingCfgParamSave with _ | _
    · right
      exact ⟨rfl, by rw [loopSaveStep_of_false _ ((pollBody_frame _ _ _).2.2.1.trans rfl)]⟩
    · left
      exact ⟨rfl, by rw [loopSaveStep_of_true _ ((pollBody_frame _ _ _).2.2.1.trans rfl)]⟩
  · rw [if_neg hc]
    refine ⟨sx, rfl, rfl, rfl, rfl, rfl, ?_⟩
    rcases hb : sx.pendingCfgParamSave with _ | _
    · right
      exact ⟨rfl, by rw [loopSaveStep_of_false _ hb]⟩
    · left
      exact ⟨rfl, by rw [loopSaveStep_of_true _ hb]⟩

lemma bootParams_fields (s2 : St) :
    (bootParams s2).fanSpeed = s2.fanSpeed ∧ (bootParams s2).pins = s2.pins ∧
    (bootParams s2).pendingCfgParamSave = s2.pendingCfgParamSave := by
  unfold bootParams
  split <;> exact ⟨rfl, rfl, rfl⟩

lemma setup_fanSpeed (s : St) : (setup s).fanSpeed = s.eeprom EEPROM_ADDRESS := by
  unfold setup
  exact (bootParams_fields _).1

lemma setup_pins (s : St) :
    (setup s).pins = setSpeedRelays (convertSpeed (s.eeprom EEPROM_ADDRESS))
      (applyWrites (RELAY_PIN.map (fun p => (p, HIGH))) s.pins) := by
  unfold setup
  exact (bootParams_fields _).2.1

lemma setup_pendingCfgParamSave (s : St) :
    (setup s).pendingCfgParamSave = s.pendingCfgParamSave := by
  unfold setup
  exact (bootParams_fields _).2.2

lemma setup_of_valid (s : St) (h : verifyChecksum s.eeprom = true) :
    setup s = loadParameters (setterFan (s.eeprom EEPROM_ADDRESS)
      { s with pins := applyWrites (RELAY_PIN.map (fun p => (p, HIGH))) s.pins }) := by
  unfold setup bootParams
  rw [if_pos ((verifyChecksum_setterFan (s.eeprom EEPROM_ADDRESS)
    { s with pins := applyWrites (RELAY_PIN.map (fun p => (p, HIGH))) s.pins }).trans h)]

lemma setup_of_corrupt (s : St) (h : verifyChecksum s.eeprom = false) :
    setup s = saveParameters (setDefaultParameters (setterFan (s.eeprom EEPROM_ADDRESS)
      { s with pins := applyWrites (RELAY_PIN.map (fun p => (p, HIGH))) s.pins })) := by
  unfold setup bootParams
  rw [if_neg]
  intro hcontra
  have h2 : verifyChecksum s.eeprom = true :=
    (verifyChecksum_setterFan (s.eeprom EEPROM_ADDRESS)
      { s with pins := applyWrites (RELAY_PIN.map (fun p => (p, HIGH))) s.pins }).symm.trans
      hcontra
  rw [h] at h2
  exact Bool.false_ne_true h2

/-- C1: for every percentage p in 0..99, `convertSpeed` returns exactly
0 (Off) for p = 0, 1 (VeryLow) for p in [1,20], 2 (Low) for p in [21,40],
3 (Mid) for p in [41,60], 4 (High) for p in [61,80], 5 (Full) for p in
[81,99]; in particular `convertSpeed 20 = 1` and `convertSpeed 21 = 2`. -/
theorem convertSpeed_bands (p : Nat) (hp : p < 100) :
    (p = 0 → convertSpeed p = 0) ∧
    (1 ≤ p → p ≤ 20 → convertSpeed p = 1) ∧
    (21 ≤ p → p ≤ 40 → convertSpeed p = 2) ∧
    (41 ≤ p → p ≤ 60 → convertSpeed p = 3) ∧
    (61 ≤ p → p ≤ 80 → convertSpeed p = 4) ∧
    (81 ≤ p → convertSpeed p = 5) ∧
    convertSpeed 20 = 1 ∧ convertSpeed 21 = 2 := by
  refine ⟨?_, ?_, ?_, ?_, ?_, ?_, by decide, by decide⟩ <;>
    · intros
      unfold convertSpeed
      split_ifs <;> omega

/-- Witness for C1 at the boundary input 21. -/
theorem convertSpeed_bands_witness :
    21 < 100 ∧ convertSpeed 21 = 2 :=
  ⟨by decide, (convertSpeed_bands 21 (by decide)).2.2.1 (by decide) (by decide)⟩

/-- C9: `convertSpeed` is total on every byte 0..255 with no error path,
and every input p with 100 ≤ p ≤ 255 maps to 5 (Full); hence every
persisted byte resolves to a valid speed level (≤ 5). -/
theorem convertSpeed_total_bytes (p : Nat) (h1 : 100 ≤ p) (h2 : p ≤ 255) :
    convertSpeed p = 5 ∧ ∀ q : Nat, q ≤ 255 → convertSpeed q ≤ 5 := by
  constructor
  · unfold convertSpeed
    split_ifs <;> omega
  · intro q _
    exact convertSpeed_le_five q

/-- Witness for C9 at input 200. -/
theorem convertSpeed_total_bytes_witness :
    100 ≤ 200 ∧ 200 ≤ 255 ∧ convertSpeed 200 = 5 :=
  ⟨by decide, by decide, (convertSpeed_total_bytes 200 (by decide) (by decide)).1⟩

/-- C8: `setSpeedRelays 3` (Mid) drives exactly relay channels 2 and 5
(pins 10 and 14) to the active low state and channels 1, 3, 4 (pins 9,
11, 12) to the inactive high state, matching `relayTable` row 3. -/
theorem setSpeedRelays_mid (q : Nat → PinLevel) :
    setSpeedRelays 3 q 9 = HIGH ∧ setSpeedRelays 3 q 10 = LOW ∧
    setSpeedRelays 3 q 11 = HIGH ∧ setSpeedRelays 3 q 12 = HIGH ∧
    setSpeedRelays 3 q 14 = LOW ∧
    relayTable.getD 3 [] = [HIGH, LOW, HIGH, HIGH, LOW] :=
  ⟨rfl, rfl, rfl, rfl, rfl, rfl⟩

/-- C7: write footprint of `setSpeedRelays`: for level ≤ 5 exactly the 5
controlled relay pins 9, 10, 11, 12, 14 are written, in that order; for
level > 5 no output line is written at all; and in both cases the 6th
relay pin (15) is never written. -/
theorem setSpeedRelays_frame (v : Nat) :
    (v ≤ 5 → (setSpeedRelaysWrites v).map Prod.fst = [9, 10, 11, 12, 14]) ∧
    (5 < v → setSpeedRelaysWrites v = []) ∧
    (∀ w ∈ setSpeedRelaysWrites v, w.1 ≠ 15) := by
  refine ⟨fun h => ?_, fun h => ?_, fun w hw => ?_⟩
  · simp only [setSpeedRelaysWrites, if_pos h]
    rfl
  · simp only [setSpeedRelaysWrites]
    rw [if_neg (by omega)]
  · by_cases h : v ≤ 5
    · simp only [setSpeedRelaysWrites, if_pos h, List.mem_map, List.mem_range] at hw
      obtain ⟨i, hi, rfl⟩ := hw
      have hi5 : i < 5 := by
        simpa [NUMBER_OF_RELAYS] using hi
      interval_cases i <;> simp [RELAY_PIN]
    · simp only [setSpeedRelaysWrites, if_neg h] at hw
      exact absurd hw (List.not_mem_nil w)

/-- Witness for C7 at levels 3 and 6. -/
theorem setSpeedRelays_frame_witness :
    (setSpeedRelaysWrites 3).map Prod.fst = [9, 10, 11, 12, 14] ∧
    setSpeedRelaysWrites 6 = [] :=
  ⟨(setSpeedRelays_frame 3).1 (by decide), (setSpeedRelays_frame 6).2.1 (by decide)⟩

/-- C2: for every byte p, after `setterFan p` followed by a simulated
reboot (`powerCycle` then `setup`, which reads the persisted byte and
replays it through `setterFan`), `getterFan` returns p and the five relay
output pins hold the states produced by
`setSpeedRelays (convertSpeed p)`. -/
theorem setterFan_reboot_roundtrip (p : Nat) (hp : p < 256) (s : St) :
    getterFan (setup (powerCycle (setterFan p s))) = p ∧
    ∀ (q : Nat → PinLevel) (i : Nat), i < 5 →
      (setup (powerCycle (setterFan p s))).pins (RELAY_PIN.getD i 0) =
        setSpeedRelays (convertSpeed p) q (RELAY_PIN.getD i 0) := by
  have he : (powerCycle (setterFan p s)).eeprom EEPROM_ADDRESS = p := rfl
  constructor
  · show (setup (powerCycle (setterFan p s))).fanSpeed = p
    rw [setup_fanSpeed, he]
  · intro q i hi
    rw [setup_pins, he]
    rw [setSpeedRelays_pin _ (convertSpeed_le_five p) _ _ hi,
      setSpeedRelays_pin _ (convertSpeed_le_five p) _ _ hi]

/-- Witness for C2 at p = 45 (level Mid) from the all-zero initial state. -/
theorem setterFan_reboot_roundtrip_witness :
    45 < 256 ∧ getterFan (setup (powerCycle (setterFan 45 initSt))) = 45 ∧
    (setup (powerCycle (setterFan 45 initSt))).pins (RELAY_PIN.getD 1 0) =
      setSpeedRelays (convertSpeed 45) (fun _ => HIGH) (RELAY_PIN.getD 1 0) :=
  ⟨by decide, (setterFan_reboot_roundtrip 45 (by decide) initSt).1,
    (setterFan_reboot_roundtrip 45 (by decide) initSt).2 (fun _ => HIGH) 1 (by decide)⟩

/-- C5: for every parameter byte q outside 64, 65, 66, including every q
below the base 64 where the `uint8_t` subtraction wraps modulo 256,
`configParameterChanged` leaves the state entirely unchanged. -/
theorem configParameterChanged_out_of_range (q v : Nat) (hq : q < 256)
    (h64 : q ≠ 64) (h65 : q ≠ 65) (h66 : q ≠ 66) (s : St) :
    configParameterChanged q v s = s := by
  unfold configParameterChanged
  rw [if_pos]
  show (q + 256 - PARAMETER_FIRST_NUMBER) % 256 ≥ PARAM_MAX
  unfold PARAMETER_FIRST_NUMBER PARAM_MAX
  omega

/-- Witness for C5 at q = 0 (wraps to offset 192) and explicit fields. -/
theorem configParameterChanged_out_of_range_witness :
    configParameterChanged 0 1234 initSt = initSt ∧
    configParameterChanged 63 7 initSt = initSt :=
  ⟨configParameterChanged_out_of_range 0 1234 (by decide) (by decide) (by decide)
      (by decide) initSt,
    configParameterChanged_out_of_range 63 7 (by decide) (by decide) (by decide)
      (by decide) initSt⟩

lemma setDefaultParameters_parameters (x : St) (j : Nat) (hj : j < PARAM_MAX) :
    (setDefaultParameters x).parameters j = parametersDefault.getD j 0 := by
  unfold setDefaultParameters
  simp [hj]

/-- C3: for every initial storage whose stored checksum byte does not
match the byte-sum of the stored parameter block (`verifyChecksum` is
false), `setup` resets the three in-memory parameters to the compiled-in
defaults, persists them to the parameter block, and persists a checksum
such that `verifyChecksum` returns true afterward. -/
theorem boot_corrupt_resets (s : St) (hbad : verifyChecksum s.eeprom = false) :
    ((setup s).parameters 0 = TEMP_HYSTERESIS_DEFAULT ∧
     (setup s).parameters 1 = HUM_HYSTERESIS_DEFAULT ∧
     (setup s).parameters 2 = READ_INTERVAL_DEFAULT_S) ∧
    (∀ j, j < PARAM_MAX →
      zunoLoadCFGParam (PARAMETER_FIRST_NUMBER + j) ((setup s).eeprom) =
        (setup s).parameters j) ∧
    verifyChecksum ((setup s).eeprom) = true := by
  rw [setup_of_corrupt s hbad]
  refine ⟨⟨rfl, rfl, rfl⟩, ?_, verifyChecksum_saveParameters _⟩
  intro j hj
  have hb : (setDefaultParameters (setterFan (s.eeprom EEPROM_ADDRESS)
      { s with pins := applyWrites (RELAY_PIN.map (fun p => (p, HIGH))) s.pins })).parameters j
      < 65536 := by
    rw [setDefaultParameters_parameters _ j hj]
    unfold PARAM_MAX at hj
    interval_cases j <;> decide
  rw [zunoLoad_after_save _ j hj hb]
  rfl

/-- Witness for C3: boot from a storage image whose checksum byte is
corrupted. -/
theorem boot_corrupt_resets_witness :
    verifyChecksum corruptSt.eeprom = false ∧
    (setup corruptSt).parameters 2 = READ_INTERVAL_DEFAULT_S ∧
    verifyChecksum ((setup corruptSt).eeprom) = true :=
  ⟨by decide, ((boot_corrupt_resets corruptSt (by decide)).1).2.2,
    (boot_corrupt_resets corruptSt (by decide)).2.2⟩

/-- C4: for every in-range parameter change event (parameter number 64,
65 or 66) with a 16-bit value v, `configParameterChanged` sets the
in-memory parameter to v immediately (the read-interval parameter is set
to `READ_INTERVAL_MIN` when v < 30), leaves every other parameter alone,
only sets the deferred-save flag and performs no storage write itself;
after the next `loop` iteration the parameters are persisted and the
persisted checksum byte matches the checksum recomputed over the
persisted parameter values (`verifyChecksum` holds). -/
theorem configParameterChanged_in_range (k v : Nat)
    (hk : k = 64 ∨ k = 65 ∨ k = 66) (hv : v < 65536) (s : St)
    (hs : ∀ j, j < PARAM_MAX → s.parameters j < 65536) (inp : LoopInput) :
    (configParameterChanged k v s).parameters (k - PARAMETER_FIRST_NUMBER) =
      (if k - PARAMETER_FIRST_NUMBER = PARAM_READ_INTERVAL ∧ v < READ_INTERVAL_MIN
        then READ_INTERVAL_MIN else v) ∧
    (∀ j, j ≠ k - PARAMETER_FIRST_NUMBER →
      (configParameterChanged k v s).parameters j = s.parameters j) ∧
    (configParameterChanged k v s).pendingCfgParamSave = true ∧
    (configParameterChanged k v s).eeprom = s.eeprom ∧
    (∀ j, j < PARAM_MAX →
      zunoLoadCFGParam (PARAMETER_FIRST_NUMBER + j)
        ((loopTick inp (configParameterChanged k v s)).1.eeprom) =
        (configParameterChanged k v s).parameters j) ∧
    verifyChecksum ((loopTick inp (configParameterChanged k v s)).1.eeprom) = true := by
  have hpn : (k + 256 - PARAMETER_FIRST_NUMBER) % 256 = k - PARAMETER_FIRST_NUMBER := by
    unfold PARAMETER_FIRST_NUMBER
    rcases hk with h | h | h <;> subst h <;> decide
  have hcfg : configParameterChanged k v s =
      { s with
        parameters := fun i => if i = k - PARAMETER_FIRST_NUMBER then
          (if k - PARAMETER_FIRST_NUMBER = PARAM_READ_INTERVAL ∧ v < READ_INTERVAL_MIN
            then READ_INTERVAL_MIN else v) else s.parameters i,
        pendingCfgParamSave := true } := by
    unfold configParameterChanged
    rw [hpn]
    rw [if_neg (by
      unfold PARAM_MAX PARAMETER_FIRST_NUMBER
      rcases hk with h | h | h <;> subst h <;> decide)]
  have hpend1 : (configParameterChanged k v s).pendingCfgParamSave = true := by
    rw [hcfg]
  obtain ⟨t1, ht1par, ht1e, ht1pend, _, _, hor⟩ :=
    loopTick_cases inp (configParameterChanged k v s)
  rcases hor with ⟨_, heq⟩ | ⟨hfalse, _⟩
  swap
  · rw [hpend1] at hfalse
    exact absurd hfalse (by decide)
  refine ⟨?_, ?_, hpend1, ?_, ?_, ?_⟩
  · rw [hcfg]
    simp
  · intro j hj
    rw [hcfg]
    show (if j = k - PARAMETER_FIRST_NUMBER then _ else s.parameters j) = s.parameters j
    rw [if_neg hj]
  · rw [hcfg]
  · intro j hj
    have hbound : t1.parameters j < 65536 := by
      rw [ht1par, hcfg]
      show (if j = k - PARAMETER_FIRST_NUMBER then
        (if k - PARAMETER_FIRST_NUMBER = PARAM_READ_INTERVAL ∧ v < READ_INTERVAL_MIN
          then READ_INTERVAL_MIN else v) else s.parameters j) < 65536
      split
      · split
        · decide
        · exact hv
      · exact hs j hj
    rw [heq]
    show zunoLoadCFGParam (PARAMETER_FIRST_NUMBER + j) ((saveParameters t1).eeprom) =
      (configParameterChanged k v s).parameters j
    rw [zunoLoad_after_save t1 j hj hbound, ht1par]
  · rw [heq]
    show verifyChecksum ((saveParameters t1).eeprom) = true
    exact verifyChecksum_saveParameters t1

/-- Witness for C4: parameter 66 (read interval) set to 5, which the
handler floors to 30; after the next loop iteration the checksum is
valid. -/
theorem configParameterChanged_in_range_witness :
    (configParameterChanged 66 5 initSt).parameters 2 = 30 ∧
    (configParameterChanged 66 5 initSt).pendingCfgParamSave = true ∧
    verifyChecksum ((loopTick ⟨0, 0, 0⟩ (configParameterChanged 66 5 initSt)).1.eeprom)
      = true :=
  ⟨(configParameterChanged_in_range 66 5 (by decide) (by decide) initSt
      (fun _ _ => by norm_num [initSt]) ⟨0, 0, 0⟩).1,
   (configParameterChanged_in_range 66 5 (by decide) (by decide) initSt
      (fun _ _ => by norm_num [initSt]) ⟨0, 0, 0⟩).2.2.1,
   (configParameterChanged_in_range 66 5 (by decide) (by decide) initSt
      (fun _ _ => by norm_num [initSt]) ⟨0, 0, 0⟩).2.2.2.2.2⟩

/-- C6: on a polling tick (the read interval has elapsed), for each of
temperature and humidity independently, a report fires if and only if the
absolute difference between the new reading and that quantity's
last-reported value is at least that quantity's hysteresis parameter, and
the last-reported value is updated to the new reading exactly when the
report fires. -/
theorem loop_hysteresis (inp : LoopInput) (s : St)
    (hdue : (inp.currentMillis + 2 ^ 32 - s.lastMillis % 2 ^ 32) % 2 ^ 32 ≥
      s.parameters PARAM_READ_INTERVAL * 1000) :
    ((loopTick inp s).2.tempReport = true ↔
      (inp.tempReading - s.sentTemperature).natAbs ≥
        s.parameters PARAM_TEMP_HYSTERESIS) ∧
    ((loopTick inp s).2.humReport = true ↔
      (inp.humReading - s.sentHumidity).natAbs ≥ s.parameters PARAM_HUM_HYSTERESIS) ∧
    ((loopTick inp s).1.sentTemperature =
      if (loopTick inp s).2.tempReport then inp.tempReading else s.sentTemperature) ∧
    ((loopTick inp s).1.sentHumidity =
      if (loopTick inp s).2.humReport then inp.humReading else s.sentHumidity) := by
  unfold loopTick
  rw [if_pos hdue]
  have houts : ∀ p : St × LoopOutput, (loopSaveStep p).2 = p.2 ∧
      (loopSaveStep p).1.sentTemperature = p.1.sentTemperature ∧
      (loopSaveStep p).1.sentHumidity = p.1.sentHumidity := by
    intro p
    unfold loopSaveStep
    split <;> exact ⟨rfl, rfl, rfl⟩
  rw [(houts _).1, (houts _).2.1, (houts _).2.2]
  unfold pollBody
  by_cases ht : (inp.tempReading - s.sentTemperature).natAbs ≥
      s.parameters PARAM_TEMP_HYSTERESIS <;>
    by_cases hh : (inp.humReading - s.sentHumidity).natAbs ≥
        s.parameters PARAM_HUM_HYSTERESIS <;>
      simp [ht, hh]

/-- Witness for C6: a tick at the all-zero state (interval 0, hysteresis
0) with a temperature jump reports and updates the sent values. -/
theorem loop_hysteresis_witness :
    (loopTick ⟨0, 100, 0⟩ initSt).2.tempReport = true ∧
    (loopTick ⟨0, 100, 0⟩ initSt).1.sentHumidity =
      (if (loopTick ⟨0, 100, 0⟩ initSt).2.humReport then 0 else initSt.sentHumidity) :=
  ⟨(loop_hysteresis ⟨0, 100, 0⟩ initSt (by decide)).1.mpr (by decide),
   (loop_hysteresis ⟨0, 100, 0⟩ initSt (by decide)).2.2.2⟩

lemma ChecksumInv_loadParameters (x : St) (hwf : ∀ a, x.eeprom a < 256)
    (hok : verifyChecksum x.eeprom = true) : ChecksumInv (loadParameters x) := by
  rw [verifyChecksum_eval, beq_iff_eq] at hok
  unfold ChecksumInv
  have hck : (loadParameters x).eeprom CHECKSUM_ADDRESS = x.eeprom 1 := rfl
  rw [hck]
  unfold paramChecksum highByte lowByte
  have h0 : (loadParameters x).parameters 0 = x.eeprom 8192 + 256 * x.eeprom 8193 := rfl
  have h1 : (loadParameters x).parameters 1 = x.eeprom 8194 + 256 * x.eeprom 8195 := rfl
  have h2 : (loadParameters x).parameters 2 = x.eeprom 8196 + 256 * x.eeprom 8197 := rfl
  rw [h0, h1, h2]
  have w0 := hwf 8192
  have w1 := hwf 8193
  have w2 := hwf 8194
  have w3 := hwf 8195
  have w4 := hwf 8196
  have w5 := hwf 8197
  omega

lemma loopTick_ChecksumInv (inp : LoopInput) (sx : St)
    (h : ChecksumInv sx ∨ sx.pendingCfgParamSave = true) :
    ChecksumInv (loopTick inp sx).1 := by
  obtain ⟨t1, ht1par, ht1e, ht1pend, _, _, hor⟩ := loopTick_cases inp sx
  rcases hor with ⟨_, heq⟩ | ⟨hpf, heq⟩
  · rw [heq]
    exact ChecksumInv_saveParameters t1
  · rw [heq]
    rcases h with hinv | hpt
    · unfold ChecksumInv at hinv ⊢
      rw [ht1e, ht1par]
      exact hinv
    · rw [hpf] at hpt
      exact absurd hpt (by decide)

lemma loopTick_clears_pending (inp : LoopInput) (sx : St) :
    (loopTick inp sx).1.pendingCfgParamSave = false := by
  obtain ⟨t1, _, _, ht1pend, _, _, hor⟩ := loopTick_cases inp sx
  rcases hor with ⟨_, heq⟩ | ⟨hpf, heq⟩
  · rw [heq]
  · rw [heq, ht1pend, hpf]

/-- C10 (implicit invariant): after `setup` (either checksum branch, from
storage whose bytes are bytes) the deferred-save flag is clear and the
byte at `CHECKSUM_ADDRESS` equals the modulo-256 byte-sum of the
in-memory parameters (`ChecksumInv`); one `loop` iteration re-establishes
the invariant whenever it held before or the flag was set, always ends
with the flag clear, and a `configParameterChanged` event followed by the
next `loop` iteration re-establishes it as well. -/
theorem checksum_invariant (s sx : St) (hwf : ∀ a, s.eeprom a < 256)
    (hflag : s.pendingCfgParamSave = false) (inp : LoopInput) (k v : Nat) :
    (ChecksumInv (setup s) ∧ (setup s).pendingCfgParamSave = false) ∧
    ((ChecksumInv sx ∨ sx.pendingCfgParamSave = true) →
      ChecksumInv (loopTick inp sx).1) ∧
    (loopTick inp sx).1.pendingCfgParamSave = false ∧
    (ChecksumInv sx →
      ChecksumInv (loopTick inp (configParameterChanged k v sx)).1) := by
  refine ⟨⟨?_, ?_⟩, loopTick_ChecksumInv inp sx, loopTick_clears_pending inp sx, ?_⟩
  · cases hvc : verifyChecksum s.eeprom
    · rw [setup_of_corrupt s hvc]
      exact ChecksumInv_saveParameters _
    · rw [setup_of_valid s hvc]
      refine ChecksumInv_loadParameters _ ?_ ?_
      · intro a
        show (if a = EEPROM_ADDRESS then s.eeprom EEPROM_ADDRESS else s.eeprom a) < 256
        split
        · exact hwf _
        · exact hwf _
      · exact (verifyChecksum_setterFan (s.eeprom EEPROM_ADDRESS)
          { s with pins := applyWrites (RELAY_PIN.map (fun p => (p, HIGH))) s.pins }).trans
          hvc
  · rw [setup_pendingCfgParamSave]
    exact hflag
  · intro hinv
    by_cases hno : (k + 256 - PARAMETER_FIRST_NUMBER) % 256 ≥ PARAM_MAX
    · have hid : configParameterChanged k v sx = sx := by
        unfold configParameterChanged
        rw [if_pos hno]
      rw [hid]
      exact loopTick_ChecksumInv inp sx (Or.inl hinv)
    · have hpt : (configParameterChanged k v sx).pendingCfgParamSave = true := by
        unfold configParameterChanged
        rw [if_neg hno]
      exact loopTick_ChecksumInv inp _ (Or.inr hpt)

/-- Witness for C10 from the all-zero initial state. -/
theorem checksum_invariant_witness :
    ChecksumInv (setup initSt) ∧ (loopTick ⟨0, 0, 0⟩ initSt).1.pendingCfgParamSave = false :=
  ⟨(checksum_invariant initSt initSt (fun _ => by norm_num [initSt]) rfl
      ⟨0, 0, 0⟩ 0 0).1.1,
   (checksum_invariant initSt initSt (fun _ => by norm_num [initSt]) rfl
      ⟨0, 0, 0⟩ 0 0).2.2.1⟩
